import Mathlib

/-
Verification of the summary_service job pipeline.

The repository implements the same summarization pipeline in several
transport variants:
  * src/app.py       - Flask service with an in-memory document store, a
                       Redis status cache and one background thread per job;
  * src/worker.py    - a worker polling a Redis list queue (process_queue)
                       and an SQS-message variant (process_message), storing
                       status / error / result under separate Redis keys;
  * src/summarize.py - API-Gateway Lambda facade over DynamoDB + Redis;
  * src/processor.py - processor Lambda driving a DynamoDB-backed job.

Each Python function is embedded as a pure Lean function over an explicit
state record.  Redis / DynamoDB key spaces are modelled as functions
String -> Option String (resp. Option of a record); Python truthiness of
optional strings (None or "" is falsy) is modelled by `truthy`.  Wall-clock
timestamp fields (created_at / updated_at) are not modelled: no claim
mentions them.  The external LLM HTTP call is modelled by an environment
`responses : Nat -> ApiResponse` giving the outcome of each attempt.
-/

namespace SummaryService

/-- Outcome of one HTTP attempt against the external summarization API,
as distinguished by the Python code: a `requests` exception (network
failure or a 4xx/5xx raised by `raise_for_status`), a well-formed HTTP
response whose JSON has no usable `choices` entry, or a usable response. -/
inductive ApiResponse where
  | transient (msg : String)
  | malformed
  | success (summary : String)
deriving DecidableEq

/-- Result of the whole retry wrapper: either a summary or the message of
the exception that escaped it. -/
inductive ApiResult where
  | ok (summary : String)
  | err (msg : String)
deriving DecidableEq

/-- What a call to the retry wrapper did: its result, the list of backoff
sleeps (seconds) it performed, and how many HTTP attempts it made. -/
structure CallOutcome where
  result : ApiResult
  sleeps : List Nat
  attempts : Nat
deriving DecidableEq

/-- The retry loop shared verbatim by `call_grokx_api` (src/app.py lines
86-113, src/processor.py lines 116-143) and `call_xai_api` (src/worker.py
lines 102-150): `for attempt in range(max_retries)`, return the summary on
success, raise "Unexpected API response format" on a malformed body (a
plain Exception, NOT caught by the `except RequestException` handler, so
it escapes the loop at once), and on a RequestException sleep
`retry_delay * 2 ** attempt` and retry while `attempt < max_retries - 1`,
else raise the attempts-exhausted message.  The loop is given `fuel`
(structural recursion); callers pass `fuel = maxRetries`, which is enough,
and the fuel-out value coincides with the post-loop raise. -/
def retryLoop (apiName : String) (responses : Nat → ApiResponse)
    (maxRetries retryDelay : Nat) : Nat → Nat → CallOutcome
  | _, 0 => ⟨.err ("Failed to get summary from " ++ apiName), [], 0⟩
  | attempt, fuel + 1 =>
    if attempt < maxRetries then
      match responses attempt with
      | .success s => ⟨.ok s, [], 1⟩
      | .malformed => ⟨.err "Unexpected API response format", [], 1⟩
      | .transient msg =>
        if attempt + 1 < maxRetries then
          let rest := retryLoop apiName responses maxRetries retryDelay (attempt + 1) fuel
          ⟨rest.result, retryDelay * 2 ^ attempt :: rest.sleeps, rest.attempts + 1⟩
        else
          ⟨.err ("Failed to call " ++ apiName ++ " after " ++ toString maxRetries ++
                 " attempts: " ++ msg), [], 1⟩
    else
      ⟨.err ("Failed to get summary from " ++ apiName), [], 0⟩

/-- src/app.py `call_grokx_api`: max_retries = 3, retry_delay = 2. -/
def call_grokx_api (responses : Nat → ApiResponse) : CallOutcome :=
  retryLoop "GrokX API" responses 3 2 0 3

/-- src/worker.py `call_xai_api`: identical logic, max_retries = 3,
retry_delay = 2, messages say "X.AI API". -/
def call_xai_api (responses : Nat → ApiResponse) : CallOutcome :=
  retryLoop "X.AI API" responses 3 2 0 3

/-- Point update of a string-keyed partial map (a Redis `set` or an
in-memory dict assignment). -/
def setKey {α : Type} (m : String → Option α) (k : String) (v : α) :
    String → Option α :=
  fun q => if q = k then some v else m q

/-- Python truthiness of an optional string: `None` and `""` are falsy. -/
def truthy : Option String → Bool
  | none => false
  | some s => !(s == "")

/-- An HTTP JSON response as produced by `jsonify` / `json.dumps` in the
handlers: the status code plus the optional fields the handlers emit. -/
structure Resp where
  code : Nat
  status : Option String
  message : Option String
  error : Option String
  document_id : Option String
  summary : Option String
deriving DecidableEq

/-- A `/summarize` request body; a field missing from the JSON body is
`none`. -/
structure SubmitRequest where
  document_id : Option String
  text : Option String

/-- One record of the in-memory `documents` dict of src/app.py (timestamp
fields omitted, see the header comment). -/
structure Document where
  document_id : String
  original_text : String
  status : String
  summary : Option String
  error_message : Option String
deriving DecidableEq

/-- State of the Flask service of src/app.py: the Redis status keys
`summarize_status:{id}` (keyed here by id), the in-memory `documents`
dict, and the keys of the `processing_threads` dict (the pending
background work). -/
structure AppState where
  redis : String → Option String
  documents : String → Option Document
  threads : List String

/-- The service as it starts: nothing stored, nothing pending. -/
def initState : AppState :=
  ⟨fun _ => none, fun _ => none, []⟩

/-- src/app.py `update_status` (lines 154-171): set the Redis status key,
and when the document exists update its status field, recording
`error_message` only when one was given (truthy) and the status is
`error`. -/
def update_status (st : AppState) (document_id status : String)
    (error_message : Option String) : AppState :=
  let st1 := { st with redis := setKey st.redis document_id status }
  match st1.documents document_id with
  | none => st1
  | some doc =>
    let doc1 := { doc with status := status }
    let doc2 :=
      match error_message with
      | some m =>
        if m ≠ "" ∧ status = "error" then { doc1 with error_message := some m }
        else doc1
      | none => doc1
    { st1 with documents := setKey st1.documents document_id doc2 }

/-- src/app.py `summarize` (lines 173-224): reject a body missing
`document_id` or `text` with 400; answer `already_processing` when the
Redis status is exactly `processing`; otherwise set the status to
`processing`, overwrite the document record, and spawn a background
thread for the id. -/
def summarize (st : AppState) (body : SubmitRequest) : Resp × AppState :=
  match body.document_id, body.text with
  | some document_id, some text =>
    if st.redis document_id = some "processing" then
      (⟨200, some "already_processing",
        some ("Document with ID " ++ document_id ++ " is already being processed"),
        none, none, none⟩, st)
    else
      ( ⟨200, some "ok", some "Summarization started", none, none, none⟩,
        { redis := setKey st.redis document_id "processing",
          documents :=
            setKey st.documents document_id ⟨document_id, text, "processing", none, none⟩,
          threads := document_id :: st.threads } )
  | _, _ =>
    (⟨400, none, none, some "Missing required parameters (document_id or text)",
      none, none⟩, st)

/-- src/app.py `process_document` (lines 115-152), the body of the
background thread: error out if the document is absent or its text empty,
else mark `processing`, call the GrokX API, and on success store the
summary and mark `completed`, on an escaped exception mark `error` with
its message.  The `finally` block removes the id from
`processing_threads`.  Also returns the number of HTTP attempts the API
call made (0 when it was never invoked). -/
def process_document (responses : Nat → ApiResponse) (document_id : String)
    (st : AppState) : AppState × Nat :=
  match st.documents document_id with
  | none =>
    let st1 := update_status st document_id "error" (some "Document not found")
    ({ st1 with threads := st1.threads.erase document_id }, 0)
  | some doc =>
    if doc.original_text = "" then
      let st1 := update_status st document_id "error" (some "No text found to summarize")
      ({ st1 with threads := st1.threads.erase document_id }, 0)
    else
      let st1 := update_status st document_id "processing" none
      let outcome := call_grokx_api responses
      match outcome.result with
      | .ok s =>
        let docs2 :=
          match st1.documents document_id with
          | none => st1.documents
          | some d => setKey st1.documents document_id { d with summary := some s }
        let st2 := update_status { st1 with documents := docs2 } document_id "completed" none
        ({ st2 with threads := st2.threads.erase document_id }, outcome.attempts)
      | .err m =>
        let st2 := update_status st1 document_id "error" (some m)
        ({ st2 with threads := st2.threads.erase document_id }, outcome.attempts)

/-- src/app.py `check_status` (lines 226-245): answer from the Redis
status when it is truthy; on a miss fall back to the `documents` record,
repopulating Redis, and answer 404 only when the record is absent too. -/
def check_status (st : AppState) (document_id : String) : Resp × AppState :=
  let status := st.redis document_id
  if truthy status then
    (⟨200, status, none, none, none, none⟩, st)
  else
    match st.documents document_id with
    | some doc =>
      (⟨200, some doc.status, none, none, none, none⟩,
       { st with redis := setKey st.redis document_id doc.status })
    | none => (⟨404, none, none, some "Document not found", none, none⟩, st)

/-- src/app.py `get_result` (lines 247-280): branch on the Redis status
only; `completed` and `error` answer from the document record when it
exists, `processing` answers directly, and every other case - including a
Redis miss - falls through to the 404 "Result not found or not ready". -/
def get_result (st : AppState) (document_id : String) : Resp :=
  let status := st.redis document_id
  if status = some "completed" then
    match st.documents document_id with
    | some doc =>
      ⟨200, some "completed", none, none, some document_id, some (doc.summary.getD "")⟩
    | none => ⟨404, none, none, some "Result not found or not ready", none, none⟩
  else if status = some "error" then
    match st.documents document_id with
    | some doc =>
      ⟨200, some "error", none, some (doc.error_message.getD "An error occurred"),
       some document_id, none⟩
    | none => ⟨404, none, none, some "Result not found or not ready", none, none⟩
  else if status = some "processing" then
    ⟨200, some "processing", some "Document is still being processed", none,
     some document_id, none⟩
  else
    ⟨404, none, none, some "Result not found or not ready", none, none⟩

/-- State of the Redis-backed worker of src/worker.py: the key spaces
`summarize_status:`, `summarize_error:`, `summarize_result:` and
`summarize_text:` (each keyed here by document id) plus the
`summarize_queue` list. -/
structure WState where
  status : String → Option String
  errorMsg : String → Option String
  result : String → Option String
  textStore : String → Option String
  queue : List String

/-- A worker state with empty key spaces and queue. -/
def wInit : WState :=
  ⟨fun _ => none, fun _ => none, fun _ => none, fun _ => none, []⟩

/-- src/worker.py `update_status` (lines 54-68): set the status key, and
set the `summarize_error:` key only when an error message was given
(truthy) and the status is `error`. -/
def wUpdateStatus (st : WState) (document_id status : String)
    (error_message : Option String) : WState :=
  let st1 := { st with status := setKey st.status document_id status }
  match error_message with
  | some m =>
    if m ≠ "" ∧ status = "error" then
      { st1 with errorMsg := setKey st1.errorMsg document_id m }
    else st1
  | none => st1

/-- Body of one SQS message consumed by src/worker.py `process_message`. -/
structure SqsMessage where
  document_id : String
  text : Option String

/-- src/worker.py `process_message` (lines 152-197): take the text from
the message, falling back to the `summarize_text:` key; if still falsy,
mark `error`.  Otherwise mark `processing`, call the X.AI API, and on
success store the result under `summarize_result:` and mark `completed`;
on an escaped exception mark `error` with its message.  Also returns the
number of HTTP attempts made (0 when the API was not invoked). -/
def process_message (responses : Nat → ApiResponse) (msg : SqsMessage)
    (st : WState) : WState × Nat :=
  let text0 := if truthy msg.text then msg.text else st.textStore msg.document_id
  if truthy text0 then
    let st1 := wUpdateStatus st msg.document_id "processing" none
    let outcome := call_xai_api responses
    match outcome.result with
    | .ok s =>
      let st2 := { st1 with result := setKey st1.result msg.document_id s }
      (wUpdateStatus st2 msg.document_id "completed" none, outcome.attempts)
    | .err m =>
      (wUpdateStatus st1 msg.document_id "error" (some m), outcome.attempts)
  else
    (wUpdateStatus st msg.document_id "error" (some "No text found to summarize"), 0)

/-- One iteration of src/worker.py `process_queue` (lines 200-245): pop an
id from `summarize_queue` (an empty queue just sleeps); read
`summarize_text:`; if truthy, mark `processing`, call the X.AI API and
record `completed` + result or `error` + message; otherwise mark `error`.
No check of the current status is performed before processing.  Also
returns the number of HTTP attempts made. -/
def process_queue_step (responses : Nat → ApiResponse) (st : WState) :
    WState × Nat :=
  match st.queue with
  | [] => (st, 0)
  | document_id :: rest =>
    let st0 := { st with queue := rest }
    match st0.textStore document_id with
    | some text =>
      if text = "" then
        (wUpdateStatus st0 document_id "error" (some "No text found to summarize"), 0)
      else
        let st1 := wUpdateStatus st0 document_id "processing" none
        let outcome := call_xai_api responses
        match outcome.result with
        | .ok s =>
          let st2 := { st1 with result := setKey st1.result document_id s }
          (wUpdateStatus st2 document_id "completed" none, outcome.attempts)
        | .err m =>
          (wUpdateStatus st1 document_id "error" (some m), outcome.attempts)
    | none =>
      (wUpdateStatus st0 document_id "error" (some "No text found to summarize"), 0)

/-- One DynamoDB item of src/summarize.py and src/processor.py (timestamp
attributes omitted, see the header comment). -/
structure Item where
  document_id : String
  original_text : String
  status : String
  summary : Option String
  error_message : Option String
deriving DecidableEq

/-- State of the Lambda variant (src/summarize.py, src/processor.py): the
Redis status keys, the DynamoDB table, and the list of asynchronous
processor-Lambda invocations issued so far (the queue entries). -/
structure LamState where
  redis : String → Option String
  table : String → Option Item
  invocations : List String

/-- A Lambda-variant state with an empty table, cache and invocation list. -/
def lamInit : LamState :=
  ⟨fun _ => none, fun _ => none, []⟩

/-- src/summarize.py `handle_summarize_request` (lines 57-123): reject a
body missing `document_id` or `text` with 400; answer
`already_processing` when ANY truthy status exists in Redis; otherwise
set the status to `processing`, put the item, and invoke the processor
Lambda asynchronously. -/
def handle_summarize_request (st : LamState) (body : SubmitRequest) :
    Resp × LamState :=
  match body.document_id, body.text with
  | some document_id, some text =>
    if truthy (st.redis document_id) then
      (⟨200, some "already_processing",
        some ("Document with ID " ++ document_id ++ " is already being processed"),
        none, none, none⟩, st)
    else
      ( ⟨200, some "ok", some "Summarization started", none, none, none⟩,
        { redis := setKey st.redis document_id "processing",
          table :=
            setKey st.table document_id ⟨document_id, text, "processing", none, none⟩,
          invocations := st.invocations ++ [document_id] } )
  | _, _ =>
    (⟨400, none, none, some "Missing required parameters (document_id or text)",
      none, none⟩, st)

/-- src/summarize.py `handle_check_status` (lines 125-159): answer from
Redis when truthy; on a miss fall back to the DynamoDB item, repopulating
Redis; 404 only when the item is absent too. -/
def handle_check_status (st : LamState) (document_id : String) :
    Resp × LamState :=
  let status := st.redis document_id
  if truthy status then
    (⟨200, status, none, none, none, none⟩, st)
  else
    match st.table document_id with
    | some item =>
      (⟨200, some item.status, none, none, none, none⟩,
       { st with redis := setKey st.redis document_id item.status })
    | none => (⟨404, none, none, some "Document not found", none, none⟩, st)

/-- src/summarize.py `handle_get_result` (lines 161-218): branch on the
Redis status only; `completed` / `error` answer from the DynamoDB item
when present, `processing` answers directly, every other case - including
a Redis miss - falls through to the 404. -/
def handle_get_result (st : LamState) (document_id : String) : Resp :=
  let status := st.redis document_id
  if status = some "completed" then
    match st.table document_id with
    | some item =>
      ⟨200, some "completed", none, none, some document_id,
       some (item.summary.getD "")⟩
    | none => ⟨404, none, none, some "Result not found or not ready", none, none⟩
  else if status = some "error" then
    match st.table document_id with
    | some item =>
      ⟨200, some "error", none, some (item.error_message.getD "An error occurred"),
       some document_id, none⟩
    | none => ⟨404, none, none, some "Result not found or not ready", none, none⟩
  else if status = some "processing" then
    ⟨200, some "processing", some "Document is still being processed", none,
     some document_id, none⟩
  else
    ⟨404, none, none, some "Result not found or not ready", none, none⟩

/-- src/processor.py `update_status` (lines 145-173): set the Redis status
key, then update the item's status, adding `error_message` only when one
was given (truthy) and the status is `error`.  (DynamoDB `update_item` on
an absent key would create a partial item; that corner is not exercised by
any theorem below and is modelled as leaving the table unchanged.) -/
def lamUpdateStatus (st : LamState) (document_id status : String)
    (error_message : Option String) : LamState :=
  let st1 := { st with redis := setKey st.redis document_id status }
  match st1.table document_id with
  | none => st1
  | some item =>
    let item1 := { item with status := status }
    let item2 :=
      match error_message with
      | some m =>
        if m ≠ "" ∧ status = "error" then { item1 with error_message := some m }
        else item1
      | none => item1
    { st1 with table := setKey st1.table document_id item2 }

/-- src/processor.py `lambda_handler` (lines 26-81): fetch the item (error
out if absent or its text empty), call the GrokX API, and on success write
summary + `completed` to the item and `completed` to Redis; an escaped
exception marks `error` with its message.  No check of the current status
is performed before processing.  Also returns the number of HTTP attempts
made. -/
def processor_lambda_handler (responses : Nat → ApiResponse)
    (document_id : String) (st : LamState) : LamState × Nat :=
  match st.table document_id with
  | none => (lamUpdateStatus st document_id "error" (some "Document not found"), 0)
  | some item =>
    if item.original_text = "" then
      (lamUpdateStatus st document_id "error" (some "No text found to summarize"), 0)
    else
      let outcome := call_grokx_api responses
      match outcome.result with
      | .ok s =>
        let item1 := { item with summary := some s, status := "completed" }
        let st1 := { st with table := setKey st.table document_id item1 }
        ({ st1 with redis := setKey st1.redis document_id "completed" }, outcome.attempts)
      | .err m =>
        (lamUpdateStatus st document_id "error" (some m), outcome.attempts)

/-- The record invariant claimed by the spec for the worker key space:
the summary (`summarize_result:`) is present exactly when the status is
`completed`, and the error message (`summarize_error:`) is present
exactly when the status is `error`. -/
def summaryErrorConsistent (st : WState) (id : String) : Bool :=
  ((st.result id).isSome == (st.status id == some "completed")) &&
  ((st.errorMsg id).isSome == (st.status id == some "error"))

/-- `sub` occurs as a contiguous substring of `s`. -/
def strContains (sub s : String) : Bool :=
  decide (List.IsInfix sub.toList s.toList)

theorem setKey_same {α : Type} (m : String → Option α) (k : String) (v : α) :
    setKey m k v k = some v := by
  simp [setKey]

theorem setKey_other {α : Type} (m : String → Option α) (k q : String) (v : α)
    (h : q ≠ k) : setKey m k v q = m q := by
  simp [setKey, h]

/-- C4: with the hard-coded max_retries = 3 and retry_delay = 2 seconds,
three consecutive transient failures make exactly 3 HTTP attempts with
backoff sleeps of 2 s and then 4 s between them, after which both retry
wrappers (src/app.py `call_grokx_api` and src/worker.py `call_xai_api`)
raise an error that wraps the last underlying failure message and states
the attempt count 3. -/
theorem retry_schedule_three_attempts (responses : Nat → ApiResponse)
    (m0 m1 m2 : String)
    (h0 : responses 0 = .transient m0) (h1 : responses 1 = .transient m1)
    (h2 : responses 2 = .transient m2) :
    call_grokx_api responses =
      ⟨.err ("Failed to call GrokX API after 3 attempts: " ++ m2), [2, 4], 3⟩ ∧
    call_xai_api responses =
      ⟨.err ("Failed to call X.AI API after 3 attempts: " ++ m2), [2, 4], 3⟩ := by
  constructor <;> simp [call_grokx_api, call_xai_api, retryLoop, h0, h1, h2] <;> rfl

/-- Witness for C4 at a concrete always-failing environment. -/
theorem retry_schedule_three_attempts_witness :
    call_grokx_api (fun _ => .transient "connection reset") =
      ⟨.err ("Failed to call GrokX API after 3 attempts: " ++ "connection reset"),
       [2, 4], 3⟩ ∧
    call_xai_api (fun _ => .transient "connection reset") =
      ⟨.err ("Failed to call X.AI API after 3 attempts: " ++ "connection reset"),
       [2, 4], 3⟩ :=
  retry_schedule_three_attempts (fun _ => .transient "connection reset")
    "connection reset" "connection reset" "connection reset" rfl rfl rfl

/-- C5: an API answer with a well-formed HTTP envelope but no usable
`choices` entry raises a plain Exception that the RequestException
handler does not catch, so both retry wrappers stop after exactly one
attempt with no backoff sleep, and the worker records the job as `error`
with that message. -/
theorem malformed_response_fails_immediately (responses : Nat → ApiResponse)
    (id text : String) (st : WState)
    (hm : responses 0 = .malformed) (ht : text ≠ "") :
    call_grokx_api responses = ⟨.err "Unexpected API response format", [], 1⟩ ∧
    call_xai_api responses = ⟨.err "Unexpected API response format", [], 1⟩ ∧
    (process_message responses ⟨id, some text⟩ st).2 = 1 ∧
    (process_message responses ⟨id, some text⟩ st).1.status id = some "error" ∧
    (process_message responses ⟨id, some text⟩ st).1.errorMsg id =
      some "Unexpected API response format" := by
  have hx : call_xai_api responses =
      ⟨.err "Unexpected API response format", [], 1⟩ := by
    simp [call_xai_api, retryLoop, hm]
  refine ⟨?_, hx, ?_, ?_, ?_⟩
  · simp [call_grokx_api, retryLoop, hm]
  all_goals
    simp [process_message, truthy, ht, hx, wUpdateStatus, setKey_same]

/-- C1: the status path of src/app.py is NOT protected against leaving a
terminal state: running the pipeline on a fresh id "doc1" makes the
status `completed`, and re-submitting the same id then resets it to
`processing` - a regression out of the terminal state - because the
`summarize` handler only answers `already_processing` when the current
status is exactly `processing`, never for `completed` or `error`. -/
theorem resubmission_escapes_terminal_state :
    ((process_document (fun _ => .success "Hi.") "doc1"
        (summarize initState ⟨some "doc1", some "hello"⟩).2).1.redis "doc1"
      = some "completed") ∧
    ((summarize
        (process_document (fun _ => .success "Hi.") "doc1"
          (summarize initState ⟨some "doc1", some "hello"⟩).2).1
        ⟨some "doc1", some "hello"⟩).2.redis "doc1" = some "processing") := by
  exact ⟨rfl, rfl⟩

/-- C2: submitting an id a second time while its status is `processing`
answers `already_processing` (HTTP 200) and changes nothing: in
src/app.py the document record (with its original text), the Redis
status and the thread map are exactly those left by the first
submission, and in src/summarize.py the table, Redis and the invocation
list are untouched, so no second record and no second queue entry
exist and both submissions observe status `processing`. -/
theorem idempotent_resubmission (st : AppState) (ls : LamState)
    (id t1 t2 t3 : String)
    (h : ¬ st.redis id = some "processing")
    (hl : ls.redis id = some "processing") :
    ((summarize st ⟨some id, some t1⟩).2.redis id = some "processing") ∧
    ((summarize st ⟨some id, some t1⟩).2.documents id =
      some ⟨id, t1, "processing", none, none⟩) ∧
    ((summarize st ⟨some id, some t1⟩).2.threads = id :: st.threads) ∧
    (summarize (summarize st ⟨some id, some t1⟩).2 ⟨some id, some t2⟩ =
      (⟨200, some "already_processing",
        some ("Document with ID " ++ id ++ " is already being processed"),
        none, none, none⟩,
       (summarize st ⟨some id, some t1⟩).2)) ∧
    (handle_summarize_request ls ⟨some id, some t3⟩ =
      (⟨200, some "already_processing",
        some ("Document with ID " ++ id ++ " is already being processed"),
        none, none, none⟩, ls)) := by
  refine ⟨?_, ?_, ?_, ?_, ?_⟩
  · simp [summarize, h, setKey_same]
  · simp [summarize, h, setKey_same]
  · simp [summarize, h]
  · simp [summarize, h, setKey_same]
  · simp [handle_summarize_request, hl, truthy]

/-- Witness for C2: first submission of "doc1" to the fresh Flask
service, then a re-submission; and a re-submission against the Lambda
state left by its own first submission. -/
theorem idempotent_resubmission_witness :
    ((summarize initState ⟨some "doc1", some "hello"⟩).2.redis "doc1" =
      some "processing") ∧
    ((summarize initState ⟨some "doc1", some "hello"⟩).2.documents "doc1" =
      some ⟨"doc1", "hello", "processing", none, none⟩) ∧
    ((summarize initState ⟨some "doc1", some "hello"⟩).2.threads =
      "doc1" :: initState.threads) ∧
    (summarize (summarize initState ⟨some "doc1", some "hello"⟩).2
        ⟨some "doc1", some "HELLO"⟩ =
      (⟨200, some "already_processing",
        some ("Document with ID " ++ "doc1" ++ " is already being processed"),
        none, none, none⟩,
       (summarize initState ⟨some "doc1", some "hello"⟩).2)) ∧
    (handle_summarize_request
        (handle_summarize_request lamInit ⟨some "doc1", some "hello"⟩).2
        ⟨some "doc1", some "again"⟩ =
      (⟨200, some "already_processing",
        some ("Document with ID " ++ "doc1" ++ " is already being processed"),
        none, none, none⟩,
       (handle_summarize_request lamInit ⟨some "doc1", some "hello"⟩).2)) :=
  idempotent_resubmission initState
    (handle_summarize_request lamInit ⟨some "doc1", some "hello"⟩).2
    "doc1" "hello" "HELLO" "again" (by decide) rfl

/-- C3: neither worker variant checks for a terminal state before
processing a delivery: with job "doc1" already `completed` (stored
result "Hi.") and its id redelivered, one iteration of src/worker.py
`process_queue` re-invokes the summarizer (one HTTP attempt) and
overwrites the stored result, and src/processor.py `lambda_handler`
re-summarizes the completed DynamoDB item the same way. -/
theorem worker_reprocesses_terminal_job :
    let wst : WState :=
      ⟨setKey (fun _ => none) "doc1" "completed", fun _ => none,
       setKey (fun _ => none) "doc1" "Hi.",
       setKey (fun _ => none) "doc1" "hello", ["doc1"]⟩
    let lst : LamState :=
      ⟨setKey (fun _ => none) "doc1" "completed",
       setKey (fun _ => none) "doc1" ⟨"doc1", "hello", "completed", some "Hi.", none⟩,
       []⟩
    ((process_queue_step (fun _ => .success "Hi2.") wst).2 = 1) ∧
    ((process_queue_step (fun _ => .success "Hi2.") wst).1.result "doc1" =
      some "Hi2.") ∧
    ((processor_lambda_handler (fun _ => .success "Hi2.") "doc1" lst).2 = 1) ∧
    ((processor_lambda_handler (fun _ => .success "Hi2.") "doc1" lst).1.table "doc1" =
      some ⟨"doc1", "hello", "completed", some "Hi2.", none⟩) := by
  intro wst lst
  exact ⟨rfl, rfl, rfl, rfl⟩

/-- Witness for C5 at a concrete malformed-answering environment. -/
theorem malformed_response_fails_immediately_witness :
    call_grokx_api (fun _ => .malformed) =
      ⟨.err "Unexpected API response format", [], 1⟩ ∧
    call_xai_api (fun _ => .malformed) =
      ⟨.err "Unexpected API response format", [], 1⟩ ∧
    (process_message (fun _ => .malformed) ⟨"doc1", some "hello"⟩ wInit).2 = 1 ∧
    (process_message (fun _ => .malformed) ⟨"doc1", some "hello"⟩ wInit).1.status
      "doc1" = some "error" ∧
    (process_message (fun _ => .malformed) ⟨"doc1", some "hello"⟩ wInit).1.errorMsg
      "doc1" = some "Unexpected API response format" :=
  malformed_response_fails_immediately (fun _ => .malformed) "doc1" "hello" wInit
    rfl (by decide)

theorem truthy_false_cases (x : Option String) (h : truthy x = false) :
    x = none ∨ x = some "" := by
  cases x with
  | none => exact Or.inl rfl
  | some s =>
    right
    simp [truthy] at h
    simp [h]

/-- C6 counterexample: a state whose Store holds a completed record for
"doc1" while the Cache is empty (lost after a restart or eviction): the
result query of src/app.py answers 404 "Result not found or not ready"
even though a Store record exists, so the claim that EVERY read path
falls back to the Store on a Cache miss is false on the code. -/
theorem result_read_lacks_store_fallback_cex :
    let st : AppState :=
      ⟨fun _ => none,
       setKey (fun _ => none) "doc1" ⟨"doc1", "hello", "completed", some "Hi.", none⟩,
       []⟩
    (st.documents "doc1" =
      some ⟨"doc1", "hello", "completed", some "Hi.", none⟩) ∧
    (get_result st "doc1" =
      ⟨404, none, none, some "Result not found or not ready", none, none⟩) := by
  intro st
  exact ⟨rfl, rfl⟩

/-- C6 amended: only the status read path has the Store fallback: on a
Cache miss, `check_status` (src/app.py) and `handle_check_status`
(src/summarize.py) answer from the Store record and repopulate the
Cache, and return 404 exactly when no Store record exists; the result
read path (`get_result`, `handle_get_result`) consults only the cached
status and returns 404 on a Cache miss even when a Store record
exists. -/
theorem status_read_store_fallback (st : AppState) (ls : LamState)
    (id : String) (doc : Document) (item : Item)
    (h1 : truthy (st.redis id) = false) (h2 : st.documents id = some doc)
    (h3 : truthy (ls.redis id) = false) (h4 : ls.table id = some item) :
    (check_status st id = (⟨200, some doc.status, none, none, none, none⟩,
      { st with redis := setKey st.redis id doc.status })) ∧
    (handle_check_status ls id = (⟨200, some item.status, none, none, none, none⟩,
      { ls with redis := setKey ls.redis id item.status })) ∧
    (∀ id2, truthy (st.redis id2) = false → st.documents id2 = none →
      check_status st id2 =
        (⟨404, none, none, some "Document not found", none, none⟩, st)) ∧
    (get_result st id =
      ⟨404, none, none, some "Result not found or not ready", none, none⟩) ∧
    (handle_get_result ls id =
      ⟨404, none, none, some "Result not found or not ready", none, none⟩) := by
  refine ⟨?_, ?_, ?_, ?_, ?_⟩
  · simp [check_status, h1, h2]
  · simp [handle_check_status, h3, h4]
  · intro id2 g1 g2
    simp [check_status, g1, g2]
  · rcases truthy_false_cases _ h1 with h | h <;> simp [get_result, h]
  · rcases truthy_false_cases _ h3 with h | h <;> simp [handle_get_result, h]

/-- Witness for C6 amended: a completed record under a lost Cache in both
variants, plus the unknown id "nope". -/
theorem status_read_store_fallback_witness :
    let st : AppState :=
      ⟨fun _ => none,
       setKey (fun _ => none) "doc1" ⟨"doc1", "hello", "completed", some "Hi.", none⟩,
       []⟩
    let ls : LamState :=
      ⟨fun _ => none,
       setKey (fun _ => none) "doc1" ⟨"doc1", "hello", "completed", some "Hi.", none⟩,
       []⟩
    (check_status st "doc1" = (⟨200, some "completed", none, none, none, none⟩,
      { st with redis := setKey st.redis "doc1" "completed" })) ∧
    (handle_check_status ls "doc1" =
      (⟨200, some "completed", none, none, none, none⟩,
       { ls with redis := setKey ls.redis "doc1" "completed" })) ∧
    (∀ id2, truthy (st.redis id2) = false → st.documents id2 = none →
      check_status st id2 =
        (⟨404, none, none, some "Document not found", none, none⟩, st)) ∧
    (get_result st "doc1" =
      ⟨404, none, none, some "Result not found or not ready", none, none⟩) ∧
    (handle_get_result ls "doc1" =
      ⟨404, none, none, some "Result not found or not ready", none, none⟩) := by
  intro st ls
  exact status_read_store_fallback st ls "doc1"
    ⟨"doc1", "hello", "completed", some "Hi.", none⟩
    ⟨"doc1", "hello", "completed", some "Hi.", none⟩ rfl rfl rfl rfl

/-- C7: the claimed exclusivity of summary and errorMessage does not
survive a duplicate (at-least-once) delivery in src/worker.py: the same
SQS message processed twice, succeeding first ("Hi.") and then failing
after retry exhaustion, leaves status `error` with BOTH the stored
result `summarize_result:` = "Hi." and an error message set - the stale
summary is never cleared, so summary is present while status is not
`completed`. -/
theorem duplicate_delivery_breaks_exclusivity :
    let msg : SqsMessage := ⟨"doc1", some "hello"⟩
    let st1 := (process_message (fun _ => .success "Hi.") msg wInit).1
    let st2 := (process_message (fun _ => .transient "connection reset") msg st1).1
    (st2.status "doc1" = some "error") ∧
    (st2.result "doc1" = some "Hi.") ∧
    (st2.errorMsg "doc1" =
      some ("Failed to call X.AI API after 3 attempts: " ++ "connection reset")) ∧
    (summaryErrorConsistent st2 "doc1" = false) := by
  intro msg st1 st2
  exact ⟨rfl, rfl, rfl, rfl⟩

/-- C8: a submission missing `document_id` or `text` is rejected
synchronously with HTTP 400 and an error message that names the missing
field, and the whole state (Store, Cache, thread map / queue,
invocations) is returned unchanged, in both the Flask and the Lambda
variant. -/
theorem missing_field_rejected_synchronously (st : AppState) (ls : LamState)
    (body : SubmitRequest) (h : body.document_id = none ∨ body.text = none) :
    (summarize st body =
      (⟨400, none, none, some "Missing required parameters (document_id or text)",
        none, none⟩, st)) ∧
    (handle_summarize_request ls body =
      (⟨400, none, none, some "Missing required parameters (document_id or text)",
        none, none⟩, ls)) ∧
    (strContains "document_id"
      "Missing required parameters (document_id or text)" = true) ∧
    (strContains "text"
      "Missing required parameters (document_id or text)" = true) := by
  obtain ⟨d, t⟩ := body
  refine ⟨?_, ?_, by decide, by decide⟩ <;>
    cases d <;> cases t <;> simp_all [summarize, handle_summarize_request]

/-- Witness for C8: the spec scenario, a body with id "doc2" and no text,
against the fresh service states. -/
theorem missing_field_rejected_synchronously_witness :
    (summarize initState ⟨some "doc2", none⟩ =
      (⟨400, none, none, some "Missing required parameters (document_id or text)",
        none, none⟩, initState)) ∧
    (handle_summarize_request lamInit ⟨some "doc2", none⟩ =
      (⟨400, none, none, some "Missing required parameters (document_id or text)",
        none, none⟩, lamInit)) ∧
    (strContains "document_id"
      "Missing required parameters (document_id or text)" = true) ∧
    (strContains "text"
      "Missing required parameters (document_id or text)" = true) :=
  missing_field_rejected_synchronously initState lamInit ⟨some "doc2", none⟩
    (Or.inr rfl)

/-- C9: the store-and-read round trip of src/app.py preserves the
summary exactly: for any job driven from submission through a successful
summarization returning `s`, the result endpoint answers 200 with that
very string `s`. -/
theorem completed_result_roundtrip (st : AppState) (id text s : String)
    (responses : Nat → ApiResponse)
    (h1 : ¬ st.redis id = some "processing") (h2 : text ≠ "")
    (h3 : (call_grokx_api responses).result = .ok s) :
    get_result (process_document responses id
        (summarize st ⟨some id, some text⟩).2).1 id =
      ⟨200, some "completed", none, none, some id, some s⟩ := by
  simp [summarize, h1, process_document, setKey_same, h2, h3, update_status,
    get_result]

/-- Witness for C9: job "doc1" with text "hello" summarized as "Hi."
against the fresh Flask service. -/
theorem completed_result_roundtrip_witness :
    get_result (process_document (fun _ => .success "Hi.") "doc1"
        (summarize initState ⟨some "doc1", some "hello"⟩).2).1 "doc1" =
      ⟨200, some "completed", none, none, some "doc1", some "Hi."⟩ :=
  completed_result_roundtrip initState "doc1" "hello" "Hi."
    (fun _ => .success "Hi.") (by decide) (by decide) rfl

/-- C10: a submission whose `text` field is present but empty is accepted
with 200 "Summarization started", yet the job then moves to `error` with
message "No text found to summarize" and the summarizer is never invoked
(0 HTTP attempts), both in the Flask background thread and in the SQS
worker (whose Redis text fallback also misses). -/
theorem empty_text_accepted_then_errors (st : AppState) (wst : WState)
    (id : String) (responses : Nat → ApiResponse)
    (h1 : ¬ st.redis id = some "processing")
    (h2 : wst.textStore id = none) :
    ((summarize st ⟨some id, some ""⟩).1 =
      ⟨200, some "ok", some "Summarization started", none, none, none⟩) ∧
    ((process_document responses id (summarize st ⟨some id, some ""⟩).2).2 = 0) ∧
    ((process_document responses id (summarize st ⟨some id, some ""⟩).2).1.redis id
      = some "error") ∧
    (((process_document responses id
        (summarize st ⟨some id, some ""⟩).2).1.documents id).map
      Document.error_message = some (some "No text found to summarize")) ∧
    ((process_message responses ⟨id, some ""⟩ wst).2 = 0) ∧
    ((process_message responses ⟨id, some ""⟩ wst).1.status id = some "error") ∧
    ((process_message responses ⟨id, some ""⟩ wst).1.errorMsg id =
      some "No text found to summarize") := by
  refine ⟨?_, ?_, ?_, ?_, ?_, ?_, ?_⟩ <;>
    simp [summarize, h1, process_document, setKey_same, update_status,
      process_message, truthy, h2, wUpdateStatus]

/-- Witness for C10: submitting id "doc1" with empty text to the fresh
Flask service, and the analogous empty-text SQS message on a fresh
worker state. -/
theorem empty_text_accepted_then_errors_witness :
    ((summarize initState ⟨some "doc1", some ""⟩).1 =
      ⟨200, some "ok", some "Summarization started", none, none, none⟩) ∧
    ((process_document (fun _ => .success "Hi.") "doc1"
        (summarize initState ⟨some "doc1", some ""⟩).2).2 = 0) ∧
    ((process_document (fun _ => .success "Hi.") "doc1"
        (summarize initState ⟨some "doc1", some ""⟩).2).1.redis "doc1"
      = some "error") ∧
    (((process_document (fun _ => .success "Hi.") "doc1"
        (summarize initState ⟨some "doc1", some ""⟩).2).1.documents "doc1").map
      Document.error_message = some (some "No text found to summarize")) ∧
    ((process_message (fun _ => .success "Hi.") ⟨"doc1", some ""⟩ wInit).2 = 0) ∧
    ((process_message (fun _ => .success "Hi.") ⟨"doc1", some ""⟩ wInit).1.status
      "doc1" = some "error") ∧
    ((process_message (fun _ => .success "Hi.") ⟨"doc1", some ""⟩ wInit).1.errorMsg
      "doc1" = some "No text found to summarize") :=
  empty_text_accepted_then_errors initState wInit "doc1"
    (fun _ => .success "Hi.") (by decide) rfl

end SummaryService
